import Mathlib

/-!
Formal model of the vehicle-dealership domain logic
(entities `Vehicle` and `Sale`, use cases, gateway round trip).

The Python source is embedded shallowly:
* `Decimal` values are modelled as exact rationals (`ℚ`);
  `Decimal.quantize(Decimal('0.01'))` (default rounding `ROUND_HALF_EVEN`)
  is `quantize2`;
* `datetime` values are modelled as integer POSIX timestamps (second
  granularity); the year of the current instant is threaded separately
  in a `Clock` record since the model does not implement a calendar;
* strings are modelled as `List Char` restricted to ASCII behaviour
  (the relevant regexes `[a-zA-Z0-9\s]`, `[0-9]` are ASCII classes);
* `raise ValueError(msg)` is `Except.error msg`;
* the SQLAlchemy repositories are modelled as an in-memory `DB` record
  that assigns autoincrement ids, mirroring each repository method.
-/

deriving instance DecidableEq for Except

/-- Round the fraction `n / d` (with `0 ≤ n`, `0 < d`) to the nearest
integer, ties to even: the semantics of `decimal.ROUND_HALF_EVEN`,
phrased over the numerator and denominator so that it evaluates by
kernel reduction. -/
def rheND (n d : ℤ) : ℤ :=
  if 2 * (n % d) < d then n / d
  else if d < 2 * (n % d) then n / d + 1
  else if (n / d) % 2 = 0 then n / d else n / d + 1

/-- Round a nonnegative rational to the nearest integer, ties to even. -/
def rhe (q : ℚ) : ℤ := rheND q.num (q.den : ℤ)

/-- `Decimal.quantize(Decimal('0.01'))` with the default half-even
rounding, on a nonnegative value. -/
def quantize2 (q : ℚ) : ℚ := Rat.divInt (rheND (100 * q.num) (q.den : ℤ)) 100

/-- The monetary upper bound `Decimal('9999999.99')`. -/
def maxMoney : ℚ := Rat.divInt 999999999 100

/-- The current instant: POSIX timestamp (seconds) plus its calendar year. -/
structure Clock where
  ts : ℤ
  year : ℤ
  deriving DecidableEq, Repr

/-- `now.replace(hour=23, minute=59, second=59)` at second granularity. -/
def endOfDay (t : ℤ) : ℤ := 86400 * (t.fdiv 86400) + 86399

/-- `(now - d).days`: Python `timedelta.days` floor-divides by 86400. -/
def daysBetween (now d : ℤ) : ℤ := (now - d).fdiv 86400

/-- The six ASCII whitespace characters recognised by `str.strip()`
and by the regex class `\s`. -/
def isPySpace (c : Char) : Bool :=
  c = ' ' ∨ c = '\t' ∨ c = '\n' ∨ c = '\r' ∨ c = Char.ofNat 11 ∨ c = Char.ofNat 12

/-- `str.strip()` on ASCII input. -/
def pyStrip (s : List Char) : List Char :=
  ((s.dropWhile isPySpace).reverse.dropWhile isPySpace).reverse

def isAsciiUpper (c : Char) : Bool := 'A' ≤ c ∧ c ≤ 'Z'

def isAsciiLower (c : Char) : Bool := 'a' ≤ c ∧ c ≤ 'z'

def isAsciiAlpha (c : Char) : Bool := isAsciiUpper c ∨ isAsciiLower c

def isAsciiAlnum (c : Char) : Bool := isAsciiAlpha c ∨ c.isDigit

def toUpperCh (c : Char) : Char :=
  if isAsciiLower c then Char.ofNat (c.toNat - 32) else c

def toLowerCh (c : Char) : Char :=
  if isAsciiUpper c then Char.ofNat (c.toNat + 32) else c

/-- `str.lower()` on ASCII input. -/
def pyLower (s : List Char) : List Char := s.map toLowerCh

/-- Core of `str.title()`: a cased (alphabetic) character is uppercased
when the previous character was not cased and lowercased otherwise;
uncased characters pass through and reset the word boundary. -/
def pyTitleAux : Bool → List Char → List Char
  | _, [] => []
  | prevCased, c :: rest =>
      if isAsciiAlpha c then
        (if prevCased then toLowerCh c else toUpperCh c) :: pyTitleAux true rest
      else
        c :: pyTitleAux false rest

/-- `str.title()` on ASCII input. -/
def pyTitle (s : List Char) : List Char := pyTitleAux false s

/-- `re.sub(r'[^0-9]', '', s)`. -/
def digitsOnly (s : List Char) : List Char := s.filter Char.isDigit

def digitVal (c : Char) : ℕ := c.toNat - 48

/-- Weighted digit sum used by the CPF checksum. -/
def wsum (ds ws : List ℕ) : ℕ := (List.zipWith (· * ·) ds ws).sum

/-- `digit = 11 - (sum % 11)`, mapped to `0` when `≥ 10`. -/
def cpfCheckDigit (s : ℕ) : ℕ :=
  let d := 11 - s % 11
  if 10 ≤ d then 0 else d

/-- `Sale._validate_cpf_algorithm` on the 11 digit characters. -/
def cpfAlgorithm (cpf : List Char) : Bool :=
  let ds := cpf.map digitVal
  let d1 := cpfCheckDigit (wsum (ds.take 9) [10, 9, 8, 7, 6, 5, 4, 3, 2])
  if ds.getD 9 0 ≠ d1 then false
  else
    let d2 := cpfCheckDigit (wsum (ds.take 10) [11, 10, 9, 8, 7, 6, 5, 4, 3, 2])
    ds.getD 10 0 = d2

/-- `len(set(cpf)) == 1` for a nonempty digit string. -/
def allSameChar (s : List Char) : Bool := s.all (fun c => c = s.headD ' ')

/-- Re-rendering `XXX.XXX.XXX-XX` of an 11-digit string. -/
def formatCpf (d : List Char) : List Char :=
  d.take 3 ++ '.' :: ((d.drop 3).take 3 ++ '.' :: ((d.drop 6).take 3 ++ '-' :: d.drop 9))

/-- `Sale._validate_cpf`. -/
def validateCpf (cpf : List Char) : Except String (List Char) :=
  if cpf = [] then Except.error ("CPF é obrigatório e deve ser uma string")
  else
    let d := digitsOnly cpf
    if d.length ≠ 11 then Except.error ("CPF deve ter 11 dígitos")
    else if allSameChar d then
      Except.error ("CPF não pode ter todos os dígitos iguais")
    else if ¬ cpfAlgorithm d then Except.error ("CPF inválido")
    else Except.ok (formatCpf d)

inductive VehicleStatus where
  | available
  | sold
  deriving DecidableEq, Repr

inductive PaymentStatus where
  | pending
  | approved
  | rejected
  deriving DecidableEq, Repr

structure Vehicle where
  id : Option ℤ
  brand : List Char
  model : List Char
  year : ℤ
  price : ℚ
  color : List Char
  status : VehicleStatus
  createdAt : ℤ
  updatedAt : ℤ
  deriving DecidableEq, Repr

structure Sale where
  id : Option ℤ
  vehicleId : ℤ
  customerCpf : List Char
  saleDate : ℤ
  amount : ℚ
  paymentStatus : PaymentStatus
  createdAt : ℤ
  updatedAt : ℤ
  deriving DecidableEq, Repr

/-- `Vehicle._validate_brand`: nonempty, trimmed length in `[2, 50]`,
only letters/digits/whitespace, returned title-cased. -/
def validateBrand (brand : List Char) : Except String (List Char) :=
  if brand = [] then Except.error ("Marca é obrigatória e deve ser uma string")
  else
    let b := pyStrip brand
    if b.length < 2 then Except.error ("Marca deve ter pelo menos 2 caracteres")
    else if 50 < b.length then Except.error ("Marca deve ter no máximo 50 caracteres")
    else if ¬ b.all (fun c => isAsciiAlnum c ∨ isPySpace c) then
      Except.error ("Marca deve conter apenas letras, números e espaços")
    else Except.ok (pyTitle b)

/-- `Vehicle._validate_model`: nonempty, trimmed length in `[1, 100]`, title-cased. -/
def validateModel (model : List Char) : Except String (List Char) :=
  if model = [] then Except.error ("Modelo é obrigatório e deve ser uma string")
  else
    let m := pyStrip model
    if m.length < 1 then Except.error ("Modelo deve ter pelo menos 1 caractere")
    else if 100 < m.length then Except.error ("Modelo deve ter no máximo 100 caracteres")
    else Except.ok (pyTitle m)

/-- `Vehicle._validate_year`: `1900 ≤ year ≤ current_year + 1`. -/
def validateYear (clock : Clock) (year : ℤ) : Except String ℤ :=
  if year < 1900 then Except.error ("Ano deve ser maior que 1900")
  else if clock.year + 1 < year then
    Except.error ("Ano não pode ser maior que o próximo ano")
  else Except.ok year

/-- `Vehicle._validate_price`: `0 < price ≤ 9999999.99`, then quantized
to two decimal places. -/
def validatePrice (price : ℚ) : Except String ℚ :=
  if price ≤ 0 then Except.error ("Preço deve ser maior que zero")
  else if maxMoney < price then
    Except.error ("Preço deve ser menor que R$ 9.999.999,99")
  else Except.ok (quantize2 price)

/-- `Vehicle._validate_color`: nonempty, trimmed length in `[3, 30]`,
only letters/whitespace, returned title-cased. -/
def validateColor (color : List Char) : Except String (List Char) :=
  if color = [] then Except.error ("Cor é obrigatória e deve ser uma string")
  else
    let c := pyStrip color
    if c.length < 3 then Except.error ("Cor deve ter pelo menos 3 caracteres")
    else if 30 < c.length then Except.error ("Cor deve ter no máximo 30 caracteres")
    else if ¬ c.all (fun x => isAsciiAlpha x ∨ isPySpace x) then
      Except.error ("Cor deve conter apenas letras e espaços")
    else Except.ok (pyTitle c)

/-- `Vehicle.__init__`: validates brand, model, year, price, color in
source order; `created_at`/`updated_at` default to now. -/
def Vehicle.make (clock : Clock) (brand model : List Char) (year : ℤ) (price : ℚ)
    (color : List Char) (id : Option ℤ) (status : VehicleStatus)
    (createdAt updatedAt : Option ℤ) : Except String Vehicle := do
  let b ← validateBrand brand
  let m ← validateModel model
  let y ← validateYear clock year
  let p ← validatePrice price
  let c ← validateColor color
  pure { id := id, brand := b, model := m, year := y, price := p, color := c,
         status := status, createdAt := createdAt.getD clock.ts,
         updatedAt := updatedAt.getD clock.ts }

/-- `Vehicle.is_available`. -/
def Vehicle.isAvailable (v : Vehicle) : Bool := v.status = VehicleStatus.available

/-- `Vehicle.mark_as_sold`. -/
def Vehicle.markAsSold (clock : Clock) (v : Vehicle) : Except String Vehicle :=
  if ¬ v.isAvailable then Except.error ("Veículo já foi vendido")
  else Except.ok { v with status := VehicleStatus.sold, updatedAt := clock.ts }

/-- `Vehicle.update_price`. -/
def Vehicle.updatePrice (clock : Clock) (v : Vehicle) (newPrice : ℚ) :
    Except String Vehicle :=
  if ¬ v.isAvailable then
    Except.error ("Não é possível alterar preço de veículo vendido")
  else do
    let p ← validatePrice newPrice
    pure { v with price := p, updatedAt := clock.ts }

/-- Python truthiness of an optional string argument (`None` and `""`
are falsy). -/
def truthyStr (a : Option (List Char)) : Bool := a.getD [] ≠ []

/-- Python truthiness of an optional integer argument (`None` and `0`
are falsy). -/
def truthyInt (a : Option ℤ) : Bool := a.getD 0 ≠ 0

/-- `Vehicle.update_details`: each falsy argument is skipped; the rest
are validated and replace the stored field. -/
def Vehicle.updateDetails (clock : Clock) (v : Vehicle) (brand model : Option (List Char))
    (year : Option ℤ) (color : Option (List Char)) : Except String Vehicle :=
  if ¬ v.isAvailable then Except.error ("Não é possível alterar veículo vendido")
  else do
    let v ← if truthyStr brand then do
        let b ← validateBrand (brand.getD [])
        pure { v with brand := b }
      else pure v
    let v ← if truthyStr model then do
        let m ← validateModel (model.getD [])
        pure { v with model := m }
      else pure v
    let v ← if truthyInt year then do
        let y ← validateYear clock (year.getD 0)
        pure { v with year := y }
      else pure v
    let v ← if truthyStr color then do
        let c ← validateColor (color.getD [])
        pure { v with color := c }
      else pure v
    pure { v with updatedAt := clock.ts }

/-- `Sale._validate_vehicle_id`. -/
def validateVehicleId (vehicleId : ℤ) : Except String ℤ :=
  if vehicleId ≤ 0 then Except.error ("ID do veículo deve ser maior que zero")
  else Except.ok vehicleId

/-- `Sale._validate_sale_date`: not after the end of the current day and
not more than 30 days in the past. -/
def validateSaleDate (clock : Clock) (saleDate : ℤ) : Except String ℤ :=
  if endOfDay clock.ts < saleDate then
    Except.error ("Data da venda não pode ser no futuro")
  else if 30 < daysBetween clock.ts saleDate then
    Except.error ("Data da venda não pode ser anterior a 30 dias")
  else Except.ok saleDate

/-- `Sale._validate_amount`: same rule as `Vehicle._validate_price`. -/
def validateAmount (amount : ℚ) : Except String ℚ :=
  if amount ≤ 0 then Except.error ("Valor da venda deve ser maior que zero")
  else if maxMoney < amount then
    Except.error ("Valor da venda deve ser menor que R$ 9.999.999,99")
  else Except.ok (quantize2 amount)

/-- `Sale.__init__`: validates vehicle_id, cpf, sale_date, amount in
source order. -/
def Sale.make (clock : Clock) (vehicleId : ℤ) (customerCpf : List Char)
    (saleDate : ℤ) (amount : ℚ) (id : Option ℤ) (status : PaymentStatus)
    (createdAt updatedAt : Option ℤ) : Except String Sale := do
  let vid ← validateVehicleId vehicleId
  let cpf ← validateCpf customerCpf
  let d ← validateSaleDate clock saleDate
  let a ← validateAmount amount
  pure { id := id, vehicleId := vid, customerCpf := cpf, saleDate := d,
         amount := a, paymentStatus := status,
         createdAt := createdAt.getD clock.ts, updatedAt := updatedAt.getD clock.ts }

/-- `Sale.approve_payment`: no-op when APPROVED, INVALID_STATE when
REJECTED, else sets APPROVED and bumps `updated_at`. -/
def Sale.approvePayment (clock : Clock) (s : Sale) : Except String Sale :=
  if s.paymentStatus = PaymentStatus.approved then Except.ok s
  else if s.paymentStatus = PaymentStatus.rejected then
    Except.error ("Não é possível aprovar pagamento já rejeitado")
  else Except.ok { s with paymentStatus := PaymentStatus.approved, updatedAt := clock.ts }

/-- `Sale.reject_payment`: no-op when REJECTED, INVALID_STATE when
APPROVED, else sets REJECTED and bumps `updated_at`. -/
def Sale.rejectPayment (clock : Clock) (s : Sale) : Except String Sale :=
  if s.paymentStatus = PaymentStatus.rejected then Except.ok s
  else if s.paymentStatus = PaymentStatus.approved then
    Except.error ("Não é possível rejeitar pagamento já aprovado")
  else Except.ok { s with paymentStatus := PaymentStatus.rejected, updatedAt := clock.ts }

/-- In-memory model of the SQL store: each table plus its autoincrement
counter.  A committed row is an element of the list. -/
structure DB where
  vehicles : List Vehicle
  sales : List Sale
  nextVehicleId : ℤ
  nextSaleId : ℤ
  deriving DecidableEq, Repr

/-- `VehicleRepository.find_by_id` composed with the gateway. -/
def findVehicle (db : DB) (vid : ℤ) : Option Vehicle :=
  db.vehicles.find? (fun v => decide (v.id = some vid))

/-- `SaleRepository.find_by_vehicle_id` composed with the gateway. -/
def findSaleByVehicleId (db : DB) (vid : ℤ) : Option Sale :=
  db.sales.find? (fun s => decide (s.vehicleId = vid))

/-- `SaleRepository.find_by_id` composed with the gateway. -/
def findSaleById (db : DB) (sid : ℤ) : Option Sale :=
  db.sales.find? (fun s => decide (s.id = some sid))

/-- `SaleGateway.save_sale`: the repository inserts a fresh row
(autoincrement id, `created_at`/`updated_at` defaulted to now),
committed immediately (`session.commit()` inside
`SQLAlchemySaleRepository.save`); the gateway then rebuilds the entity
from the stored row via `_dict_to_entity`, which re-runs the `Sale`
constructor validation and raises — after the commit — when the stored
row no longer validates (e.g. an amount quantized to `0.00`).  The
decimal parsed back from the stored float equals the stored two-decimal
amount (repr contract, cf. `float_repr_roundtrip`; exact already at
`0.0`), so the re-validation runs on the stored field values
themselves. -/
def saveSale (clock : Clock) (db : DB) (sale : Sale) : Except String Sale × DB :=
  let saved := { sale with
    id := some db.nextSaleId
    createdAt := clock.ts
    updatedAt := clock.ts }
  (Sale.make clock saved.vehicleId saved.customerCpf saved.saleDate saved.amount
     saved.id saved.paymentStatus (some saved.createdAt) (some saved.updatedAt),
   { db with sales := db.sales ++ [saved], nextSaleId := db.nextSaleId + 1 })

/-- `SaleGateway.update_sale`: fails when the entity id is falsy or the
row is absent; otherwise replaces the row's fields. -/
def updateSaleDb (db : DB) (sale : Sale) : Except String (Sale × DB) :=
  if sale.id = none ∨ sale.id = some 0 then
    Except.error ("Venda deve ter ID para ser atualizada")
  else
    match db.sales.find? (fun s => decide (s.id = sale.id)) with
    | none => Except.error ("Erro ao atualizar venda")
    | some _ =>
        Except.ok (sale,
          { db with sales := db.sales.map (fun s => if s.id = sale.id then sale else s) })

/-- `VehicleGateway.update_vehicle`: fails when the entity id is falsy or
the row is absent; otherwise replaces the row's fields. -/
def updateVehicleDb (db : DB) (vehicle : Vehicle) : Except String (Vehicle × DB) :=
  if vehicle.id = none ∨ vehicle.id = some 0 then
    Except.error ("Veículo deve ter ID para ser atualizado")
  else
    match db.vehicles.find? (fun v => decide (v.id = vehicle.id)) with
    | none => Except.error ("Erro ao atualizar veículo")
    | some _ =>
        Except.ok (vehicle,
          { db with vehicles := db.vehicles.map (fun v => if v.id = vehicle.id then vehicle else v) })

/-- `CreateSaleUseCase.execute`.  The result pairs the returned value (or
propagated exception) with the store contents after the call: each
repository operation commits on its own, so writes performed before an
exception stay visible. -/
def createSaleExec (clock : Clock) (db : DB) (vehicleId : ℤ) (customerCpf : List Char)
    (amount : ℚ) : Except String Sale × DB :=
  match findVehicle db vehicleId with
  | none => (Except.error ("Veículo com ID " ++ toString vehicleId ++ " não encontrado"), db)
  | some vehicle =>
    if ¬ vehicle.isAvailable then
      (Except.error ("Veículo não está disponível para venda"), db)
    else
      match findSaleByVehicleId db vehicleId with
      | some _ => (Except.error ("Veículo já possui uma venda registrada"), db)
      | none =>
        match Sale.make clock vehicleId customerCpf clock.ts amount none
            PaymentStatus.pending none none with
        | Except.error e => (Except.error e, db)
        | Except.ok sale =>
          match saveSale clock db sale with
          | (Except.error e, db1) => (Except.error e, db1)
          | (Except.ok saved, db1) =>
            match Vehicle.markAsSold clock vehicle with
            | Except.error e => (Except.error e, db1)
            | Except.ok v2 =>
              match updateVehicleDb db1 v2 with
              | Except.error e => (Except.error e, db1)
              | Except.ok (_, db2) => (Except.ok saved, db2)

/-- `CreateSaleUseCase.execute` with an injectable storage failure on the
vehicle write: when `vehicleWriteOk = false` the repository `update` call
raises after the sale insert has already been committed, and nothing
rolls the sale back. -/
def createSaleRun (clock : Clock) (db : DB) (vehicleId : ℤ) (customerCpf : List Char)
    (amount : ℚ) (vehicleWriteOk : Bool) : Except String Sale × DB :=
  match findVehicle db vehicleId with
  | none => (Except.error ("Veículo com ID " ++ toString vehicleId ++ " não encontrado"), db)
  | some vehicle =>
    if ¬ vehicle.isAvailable then
      (Except.error ("Veículo não está disponível para venda"), db)
    else
      match findSaleByVehicleId db vehicleId with
      | some _ => (Except.error ("Veículo já possui uma venda registrada"), db)
      | none =>
        match Sale.make clock vehicleId customerCpf clock.ts amount none
            PaymentStatus.pending none none with
        | Except.error e => (Except.error e, db)
        | Except.ok sale =>
          match saveSale clock db sale with
          | (Except.error e, db1) => (Except.error e, db1)
          | (Except.ok saved, db1) =>
            if ¬ vehicleWriteOk then
              (Except.error ("Erro ao atualizar veículo"), db1)
            else
              match Vehicle.markAsSold clock vehicle with
              | Except.error e => (Except.error e, db1)
              | Except.ok v2 =>
                match updateVehicleDb db1 v2 with
                | Except.error e => (Except.error e, db1)
                | Except.ok (_, db2) => (Except.ok saved, db2)

/-- `UpdatePaymentStatusUseCase.execute`: loads the sale, normalizes the
status string (`lower().strip()`), applies the entity transition and
persists. -/
def updatePaymentStatusExec (clock : Clock) (db : DB) (saleId : ℤ)
    (paymentStatus : List Char) : Except String Sale × DB :=
  match findSaleById db saleId with
  | none => (Except.error ("Venda com ID " ++ toString saleId ++ " não encontrada"), db)
  | some sale =>
    if pyStrip (pyLower paymentStatus) ≠ "approved".data ∧
        pyStrip (pyLower paymentStatus) ≠ "rejected".data then
      (Except.error ("Status de pagamento deve ser approved ou rejected"), db)
    else
      match (if pyStrip (pyLower paymentStatus) = "approved".data then
               Sale.approvePayment clock sale
             else Sale.rejectPayment clock sale) with
      | Except.error e => (Except.error e, db)
      | Except.ok s2 =>
        match updateSaleDb db s2 with
        | Except.error e => (Except.error e, db)
        | Except.ok (saved, db2) => (Except.ok saved, db2)

/-- A Python value stored under a payload key (the webhook inspects the
type of `sale_id`). -/
inductive PyVal where
  | int (n : ℤ)
  | str (s : List Char)
  deriving DecidableEq, Repr

/-- The webhook payload dictionary: `none` models an absent key. -/
structure Payload where
  saleId : Option PyVal
  status : Option (List Char)
  previousStatus : Option (List Char)
  deriving DecidableEq, Repr

def payStatusStr : PaymentStatus → List Char
  | PaymentStatus.pending => "pending".data
  | PaymentStatus.approved => "approved".data
  | PaymentStatus.rejected => "rejected".data

/-- The structured result dictionary returned by the webhook use case
(`errorMsg` models the `error` key, absent on success). -/
structure WebhookResult where
  success : Bool
  saleId : Option ℤ
  previousStatus : Option (List Char)
  currentStatus : Option (List Char)
  errorMsg : Option String
  message : String
  timestamp : ℤ
  deriving DecidableEq, Repr

/-- `ProcessPaymentWebhookUseCase.execute`: the required-field and type
checks run before the `try` block, so their `ValueError`s propagate
(`Except.error`); failures inside `UpdatePaymentStatusUseCase` are caught
and turned into a `success := false` result. -/
def processPaymentWebhook (clock : Clock) (db : DB) (payload : Payload) :
    Except String WebhookResult × DB :=
  match payload.saleId, payload.status with
  | none, _ => (Except.error ("Campo obrigatório ausente: sale_id"), db)
  | some _, none => (Except.error ("Campo obrigatório ausente: status"), db)
  | some (PyVal.str _), some _ => (Except.error ("sale_id deve ser um número inteiro"), db)
  | some (PyVal.int n), some st =>
    match updatePaymentStatusExec clock db n st with
    | (Except.ok s2, db2) =>
        (Except.ok { success := true, saleId := s2.id,
                     previousStatus := some (payload.previousStatus.getD ("unknown".data)),
                     currentStatus := some (payStatusStr s2.paymentStatus),
                     errorMsg := none,
                     message := "Status de pagamento atualizado com sucesso",
                     timestamp := clock.ts }, db2)
    | (Except.error e, db2) =>
        (Except.ok { success := false, saleId := some n,
                     previousStatus := none, currentStatus := none,
                     errorMsg := some e,
                     message := "Erro ao processar webhook de pagamento",
                     timestamp := clock.ts }, db2)

/-- `UpdateVehicleUseCase.execute`: loads the vehicle, calls
`update_details` only when some of brand/model/year/color is truthy,
calls `update_price` only when price is not `None`, persists. -/
def updateVehicleUC (clock : Clock) (db : DB) (vehicleId : ℤ)
    (brand model : Option (List Char)) (year : Option ℤ) (color : Option (List Char))
    (price : Option ℚ) : Except String Vehicle × DB :=
  match findVehicle db vehicleId with
  | none => (Except.error ("Veículo com ID " ++ toString vehicleId ++ " não encontrado"), db)
  | some vehicle =>
    match (if truthyStr brand ∨ truthyStr model ∨ truthyInt year ∨ truthyStr color then
             Vehicle.updateDetails clock vehicle brand model year color
           else Except.ok vehicle) with
    | Except.error e => (Except.error e, db)
    | Except.ok v1 =>
      match (match price with
             | some p => Vehicle.updatePrice clock v1 p
             | none => Except.ok v1) with
      | Except.error e => (Except.error e, db)
      | Except.ok v2 =>
        match updateVehicleDb db v2 with
        | Except.error e => (Except.error e, db)
        | Except.ok (saved, db2) => (Except.ok saved, db2)

/-- Round-to-nearest binary64 (ties to even) for a positive rational in
the normal range: the value the dict's `float` field holds after
`float(decimal_value)`.  Nonpositive inputs (never produced by validated
money fields) map to `0`. -/
def roundB64 (q : ℚ) : ℚ :=
  if q ≤ 0 then 0
  else (rhe (q / (2 : ℚ) ^ (Int.log 2 q - 52)) : ℚ) * (2 : ℚ) ^ (Int.log 2 q - 52)

def vehicleStatusStr : VehicleStatus → List Char
  | VehicleStatus.available => "available".data
  | VehicleStatus.sold => "sold".data

/-- `VehicleStatus(data['status'].lower())`: the enum constructor raises
on an unknown value string. -/
def vehicleStatusOfStr (s : List Char) : Except String VehicleStatus :=
  if s = "available".data then Except.ok VehicleStatus.available
  else if s = "sold".data then Except.ok VehicleStatus.sold
  else Except.error ("status não é um VehicleStatus válido")

/-- `PaymentStatus(data['payment_status'])`. -/
def payStatusOfStr (s : List Char) : Except String PaymentStatus :=
  if s = "pending".data then Except.ok PaymentStatus.pending
  else if s = "approved".data then Except.ok PaymentStatus.approved
  else if s = "rejected".data then Except.ok PaymentStatus.rejected
  else Except.error ("status não é um PaymentStatus válido")

/-- The flat storage row for a vehicle (`VehicleGateway._entity_to_dict`
output): `price` holds the binary64 value of `float(vehicle.price)`,
`status` the lowercase enum string. -/
structure VehicleDict where
  id : Option ℤ
  brand : List Char
  model : List Char
  year : ℤ
  price : ℚ
  color : List Char
  status : List Char
  createdAt : ℤ
  updatedAt : ℤ
  deriving DecidableEq, Repr

/-- The flat storage row for a sale (`SaleGateway._entity_to_dict`). -/
structure SaleDict where
  id : Option ℤ
  vehicleId : ℤ
  customerCpf : List Char
  saleDate : ℤ
  amount : ℚ
  paymentStatus : List Char
  createdAt : ℤ
  updatedAt : ℤ
  deriving DecidableEq, Repr

/-- `VehicleGateway._entity_to_dict`. -/
def vehicleEntityToDict (v : Vehicle) : VehicleDict :=
  { id := v.id, brand := v.brand, model := v.model, year := v.year,
    price := roundB64 v.price, color := v.color,
    status := vehicleStatusStr v.status,
    createdAt := v.createdAt, updatedAt := v.updatedAt }

/-- `VehicleGateway._dict_to_entity`.  `p` stands for the value of
`Decimal(str(data['price']))`: CPython guarantees `repr(f)` is a decimal
string parsing back to the float `f`, so `p` is constrained in the
theorems by `roundB64 p = d.price` together with `p` being a two-decimal
value (the shortest representation of the float of a two-decimal
decimal needs at most its two fractional digits). -/
def vehicleDictToEntity (clock : Clock) (d : VehicleDict) (p : ℚ) :
    Except String Vehicle :=
  match vehicleStatusOfStr (pyLower d.status) with
  | Except.error e => Except.error e
  | Except.ok st =>
      Vehicle.make clock d.brand d.model d.year p d.color d.id st
        (some d.createdAt) (some d.updatedAt)

/-- `SaleGateway._entity_to_dict`. -/
def saleEntityToDict (s : Sale) : SaleDict :=
  { id := s.id, vehicleId := s.vehicleId, customerCpf := s.customerCpf,
    saleDate := s.saleDate, amount := roundB64 s.amount,
    paymentStatus := payStatusStr s.paymentStatus,
    createdAt := s.createdAt, updatedAt := s.updatedAt }

/-- `SaleGateway._dict_to_entity`, with `p` the parsed
`Decimal(str(data['amount']))` as in `vehicleDictToEntity`. -/
def saleDictToEntity (clock : Clock) (d : SaleDict) (p : ℚ) :
    Except String Sale :=
  match payStatusOfStr d.paymentStatus with
  | Except.error e => Except.error e
  | Except.ok st =>
      Sale.make clock d.vehicleId d.customerCpf d.saleDate p d.id st
        (some d.createdAt) (some d.updatedAt)

/-- A vehicle entity all of whose stored fields re-validate to
themselves: exactly the entities the constructor can produce and the
reconstruction path can accept. -/
def ValidVehicle (clock : Clock) (v : Vehicle) : Prop :=
  Vehicle.make clock v.brand v.model v.year v.price v.color v.id v.status
    (some v.createdAt) (some v.updatedAt) = Except.ok v

/-- A sale entity all of whose stored fields re-validate to themselves. -/
def ValidSale (clock : Clock) (s : Sale) : Prop :=
  Sale.make clock s.vehicleId s.customerCpf s.saleDate s.amount s.id
    s.paymentStatus (some s.createdAt) (some s.updatedAt) = Except.ok s

/-- Fixed sample instant: 2023-11-14 22:13:20 UTC. -/
def clk0 : Clock := { ts := 1700000000, year := 2023 }

def cpf0 : List Char := "529.982.247-25".data

/-- Sample stored vehicle row. -/
def v0 : Vehicle :=
  { id := some 1, brand := "Toyota".data, model := "Corolla".data,
    year := 2020, price := 50000, color := "Preto".data,
    status := VehicleStatus.available,
    createdAt := 1700000000, updatedAt := 1700000000 }

/-- Sample sale entity as built by `CreateSaleUseCase` before persistence. -/
def s0 : Sale :=
  { id := none, vehicleId := 1, customerCpf := cpf0,
    saleDate := 1700000000, amount := 100,
    paymentStatus := PaymentStatus.pending,
    createdAt := 1700000000, updatedAt := 1700000000 }

/-- Sample store: one available vehicle, no sales. -/
def db0 : DB := { vehicles := [v0], sales := [], nextVehicleId := 2, nextSaleId := 1 }


/-! ### Properties of the half-even rounding -/

theorem rheND_abs (n d : ℤ) (hd : 0 < d) :
    |(rheND n d : ℚ) - (n : ℚ) / (d : ℚ)| ≤ 1/2 := by
  have hdq : (0 : ℚ) < (d : ℚ) := by exact_mod_cast hd
  have hdne : (d : ℚ) ≠ 0 := ne_of_gt hdq
  have hid : d * (n / d) + n % d = n := Int.ediv_add_emod n d
  have hrm0 : 0 ≤ n % d := Int.emod_nonneg n (by omega)
  have hrmd : n % d < d := Int.emod_lt_of_pos n hd
  have hcast : (n : ℚ) = (d : ℚ) * ((n / d : ℤ) : ℚ) + ((n % d : ℤ) : ℚ) := by
    have h2 : ((d * (n / d) + n % d : ℤ) : ℚ) = (n : ℚ) := by exact_mod_cast hid
    push_cast at h2
    linarith
  have hval : (n : ℚ) / (d : ℚ) = ((n / d : ℤ) : ℚ) + ((n % d : ℤ) : ℚ) / (d : ℚ) := by
    rw [hcast]
    field_simp
    ring
  have hrmq : (0 : ℚ) ≤ ((n % d : ℤ) : ℚ) / (d : ℚ) :=
    div_nonneg (by exact_mod_cast hrm0) hdq.le
  have hlt1 : ((n % d : ℤ) : ℚ) / (d : ℚ) < 1 := by
    rw [div_lt_one hdq]
    exact_mod_cast hrmd
  unfold rheND
  split_ifs with h1 h2 h3
  · have hhalf : ((n % d : ℤ) : ℚ) / (d : ℚ) < 1/2 := by
      rw [div_lt_iff hdq]
      have hc : 2 * ((n % d : ℤ) : ℚ) < (d : ℚ) := by exact_mod_cast h1
      linarith
    rw [hval, abs_le]
    constructor <;> linarith
  · have hhalf : (1 : ℚ)/2 < ((n % d : ℤ) : ℚ) / (d : ℚ) := by
      rw [lt_div_iff hdq]
      have hc : (d : ℚ) < 2 * ((n % d : ℤ) : ℚ) := by exact_mod_cast h2
      linarith
    rw [hval, abs_le]
    constructor <;> push_cast <;> linarith
  · have htie : ((n % d : ℤ) : ℚ) / (d : ℚ) = 1/2 := by
      rw [div_eq_iff hdne]
      have hc : 2 * ((n % d : ℤ) : ℚ) = (d : ℚ) := by
        exact_mod_cast le_antisymm (not_lt.1 h2) (not_lt.1 h1)
      linarith
    rw [hval, htie, abs_le]
    constructor <;> linarith
  · have htie : ((n % d : ℤ) : ℚ) / (d : ℚ) = 1/2 := by
      rw [div_eq_iff hdne]
      have hc : 2 * ((n % d : ℤ) : ℚ) = (d : ℚ) := by
        exact_mod_cast le_antisymm (not_lt.1 h2) (not_lt.1 h1)
      linarith
    rw [hval, htie, abs_le]
    constructor <;> push_cast <;> linarith

theorem rheND_eq_of_near (n d m : ℤ) (hd : 0 < d)
    (h : |(n : ℚ) / (d : ℚ) - (m : ℚ)| < 1/2) : rheND n d = m := by
  have h1 := rheND_abs n d hd
  have h2 : |(rheND n d : ℚ) - (m : ℚ)| < 1 := by
    calc |(rheND n d : ℚ) - (m : ℚ)|
        ≤ |(rheND n d : ℚ) - (n : ℚ) / (d : ℚ)| + |(n : ℚ) / (d : ℚ) - (m : ℚ)| :=
          abs_sub_le _ _ _
      _ < 1/2 + 1/2 := by linarith [abs_nonneg ((rheND n d : ℚ) - (n : ℚ) / (d : ℚ))]
      _ = 1 := by norm_num
  have h3 : |rheND n d - m| < 1 := by exact_mod_cast (by push_cast; exact h2 :
    |((rheND n d - m : ℤ) : ℚ)| < 1)
  have h4 := abs_lt.1 h3
  omega

theorem rheND_le (n d k : ℤ) (hd : 0 < d) (h : (n : ℚ) / (d : ℚ) ≤ (k : ℚ)) :
    rheND n d ≤ k := by
  have h1 := abs_le.1 (rheND_abs n d hd)
  have h2 : (rheND n d : ℚ) < (k : ℚ) + 1 := by linarith
  have h3 : ((rheND n d : ℤ) : ℚ) < ((k + 1 : ℤ) : ℚ) := by push_cast; linarith
  have h4 : rheND n d < k + 1 := by exact_mod_cast h3
  omega

theorem rheND_nonneg (n d : ℤ) (hd : 0 < d) (h : (0 : ℚ) ≤ (n : ℚ) / (d : ℚ)) :
    0 ≤ rheND n d := by
  have h1 := abs_le.1 (rheND_abs n d hd)
  have h2 : ((-1 : ℤ) : ℚ) < ((rheND n d : ℤ) : ℚ) := by push_cast; linarith
  have h3 : (-1 : ℤ) < rheND n d := by exact_mod_cast h2
  omega

theorem rheND_pos (n d : ℤ) (hd : 0 < d) (h : (1 : ℚ)/2 < (n : ℚ) / (d : ℚ)) :
    0 < rheND n d := by
  have h1 := abs_le.1 (rheND_abs n d hd)
  have h2 : ((0 : ℤ) : ℚ) < ((rheND n d : ℤ) : ℚ) := by push_cast; linarith
  exact_mod_cast h2

theorem maxMoney_eq : maxMoney = (999999999 : ℚ) / 100 := by
  rw [maxMoney, Rat.divInt_eq_div]
  norm_num

/-- The value `(100 * q.num) / q.den` appearing inside `quantize2` is `100 * q`. -/
theorem scaled_val (q : ℚ) : ((100 * q.num : ℤ) : ℚ) / ((q.den : ℤ) : ℚ) = 100 * q := by
  push_cast
  rw [mul_div_assoc, Rat.num_div_den]

theorem quantize2_eq (q : ℚ) :
    quantize2 q = ((rheND (100 * q.num) (q.den : ℤ) : ℤ) : ℚ) / 100 := by
  rw [quantize2, Rat.divInt_eq_div]
  norm_num

theorem den_pos_int (q : ℚ) : (0 : ℤ) < (q.den : ℤ) := by exact_mod_cast q.pos

theorem quantize2_abs (q : ℚ) : |quantize2 q - q| ≤ 1/200 := by
  have h := rheND_abs (100 * q.num) (q.den : ℤ) (den_pos_int q)
  rw [scaled_val] at h
  rw [quantize2_eq]
  have h2 : |((rheND (100 * q.num) (q.den : ℤ) : ℤ) : ℚ) / 100 - q|
      = |((rheND (100 * q.num) (q.den : ℤ) : ℤ) : ℚ) - 100 * q| / 100 := by
    rw [← abs_of_pos (show (0:ℚ) < 100 by norm_num), ← abs_div]
    congr 1
    field_simp
  rw [h2]
  rw [div_le_iff (show (0:ℚ) < 100 by norm_num)]
  linarith

theorem quantize2_twoDec (q : ℚ) : ∃ k : ℤ, quantize2 q = (k : ℚ) / 100 :=
  ⟨_, quantize2_eq q⟩

theorem quantize2_nonneg (q : ℚ) (hq : 0 ≤ q) : 0 ≤ quantize2 q := by
  rw [quantize2_eq]
  have h := rheND_nonneg (100 * q.num) (q.den : ℤ) (den_pos_int q)
    (by rw [scaled_val]; positivity)
  positivity

theorem quantize2_le_max (q : ℚ) (hq : q ≤ maxMoney) : quantize2 q ≤ maxMoney := by
  rw [quantize2_eq, maxMoney_eq]
  have h := rheND_le (100 * q.num) (q.den : ℤ) 999999999 (den_pos_int q)
    (by rw [scaled_val]; rw [maxMoney_eq] at hq; push_cast; linarith)
  rw [div_le_div_iff (by norm_num) (by norm_num)]
  have h2 : ((rheND (100 * q.num) (q.den : ℤ) : ℤ) : ℚ) ≤ ((999999999 : ℤ) : ℚ) := by
    exact_mod_cast h
  push_cast at h2 ⊢
  nlinarith

theorem quantize2_pos (q : ℚ) (hq : (1 : ℚ)/200 < q) : 0 < quantize2 q := by
  rw [quantize2_eq]
  have h := rheND_pos (100 * q.num) (q.den : ℤ) (den_pos_int q)
    (by rw [scaled_val]; linarith)
  positivity

/-! ### Money validation (claim C9) -/

theorem exceptIsOk_ok {ε α : Type} (a : α) : (Except.ok a : Except ε α).isOk = true := rfl

theorem exceptIsOk_error {ε α : Type} (e : ε) :
    (Except.error e : Except ε α).isOk = false := rfl

theorem validatePrice_ok_inv (x y : ℚ) (h : validatePrice x = Except.ok y) :
    0 < x ∧ x ≤ maxMoney ∧ y = quantize2 x := by
  unfold validatePrice at h
  split_ifs at h with h1 h2
  exact ⟨not_le.1 h1, not_lt.1 h2, (Except.ok.inj h).symm⟩

theorem validateAmount_ok_inv (x y : ℚ) (h : validateAmount x = Except.ok y) :
    0 < x ∧ x ≤ maxMoney ∧ y = quantize2 x := by
  unfold validateAmount at h
  split_ifs at h with h1 h2
  exact ⟨not_le.1 h1, not_lt.1 h2, (Except.ok.inj h).symm⟩

/-- C9 (corrected): for both `Vehicle._validate_price` and
`Sale._validate_amount`, validation succeeds exactly on inputs in
`(0, 9999999.99]`; the stored value is the half-even two-decimal
rounding of the input, hence lies in `[0, 9999999.99]` and is a
two-decimal value, and it is strictly positive whenever the input
exceeds `0.005` — but an accepted input of at most half a cent
(e.g. `0.004`) is stored as `0.00`, so the stored value is not always
strictly positive as the original claim stated. -/
theorem money_validation_spec (x : ℚ) :
    ((validatePrice x).isOk = true ↔ 0 < x ∧ x ≤ maxMoney)
  ∧ ((validateAmount x).isOk = true ↔ 0 < x ∧ x ≤ maxMoney)
  ∧ (∀ y, validatePrice x = Except.ok y ∨ validateAmount x = Except.ok y →
      y = quantize2 x ∧ 0 ≤ y ∧ y ≤ maxMoney ∧ ((1 : ℚ)/200 < x → 0 < y) ∧
      ∃ k : ℤ, y = (k : ℚ) / 100) := by
  refine ⟨?_, ?_, ?_⟩
  · unfold validatePrice
    split_ifs with h1 h2
    · simp only [exceptIsOk_error, Bool.false_eq_true, false_iff]
      intro hx
      exact absurd h1 (not_le.2 hx.1)
    · simp only [exceptIsOk_error, Bool.false_eq_true, false_iff]
      intro hx
      exact absurd h2 (not_lt.2 hx.2)
    · simp only [exceptIsOk_ok, true_iff]
      exact ⟨not_le.1 h1, not_lt.1 h2⟩
  · unfold validateAmount
    split_ifs with h1 h2
    · simp only [exceptIsOk_error, Bool.false_eq_true, false_iff]
      intro hx
      exact absurd h1 (not_le.2 hx.1)
    · simp only [exceptIsOk_error, Bool.false_eq_true, false_iff]
      intro hx
      exact absurd h2 (not_lt.2 hx.2)
    · simp only [exceptIsOk_ok, true_iff]
      exact ⟨not_le.1 h1, not_lt.1 h2⟩
  · intro y hy
    have hinv : 0 < x ∧ x ≤ maxMoney ∧ y = quantize2 x := by
      rcases hy with h | h
      · exact validatePrice_ok_inv x y h
      · exact validateAmount_ok_inv x y h
    obtain ⟨hx0, hxm, hyq⟩ := hinv
    subst hyq
    exact ⟨rfl, quantize2_nonneg x hx0.le, quantize2_le_max x hxm,
      fun hx => quantize2_pos x hx, quantize2_twoDec x⟩

theorem money_validation_spec_witness :
    ((100 : ℚ) = quantize2 100 ∧ (0 : ℚ) ≤ 100 ∧ (100 : ℚ) ≤ maxMoney ∧
      ((1 : ℚ)/200 < 100 → (0 : ℚ) < 100) ∧ ∃ k : ℤ, (100 : ℚ) = (k : ℚ) / 100) :=
  (money_validation_spec 100).2.2 100 (Or.inl (by decide))

/-- C9 counterexample: the input `0.004` is accepted by
`Vehicle._validate_price` (it is strictly positive) but is stored as
`0.00` after quantization, so a successfully constructed entity can
carry a price that is not strictly greater than zero. -/
theorem money_positive_counterexample :
    validatePrice (Rat.divInt 1 250) = Except.ok 0 ∧
    (Vehicle.make clk0 ("Toyota".data) ("Corolla".data) 2020 (Rat.divInt 1 250)
        ("Preto".data) none VehicleStatus.available none none).map Vehicle.price =
      Except.ok 0 := by
  constructor
  · decide
  · decide

/-! ### Payment state machine (claim C5) -/

/-- C5 (confirmed): `approve_payment` is a no-op on an APPROVED sale and
`reject_payment` a no-op on a REJECTED sale; `approve_payment` fails
exactly when the sale is REJECTED and `reject_payment` exactly when it
is APPROVED; from PENDING each sets its target status and bumps
`updated_at`, so APPROVED and REJECTED never interconvert. -/
theorem payment_transition_spec (clock : Clock) (s : Sale) :
    (s.paymentStatus = PaymentStatus.approved → Sale.approvePayment clock s = Except.ok s)
  ∧ (s.paymentStatus = PaymentStatus.rejected → Sale.rejectPayment clock s = Except.ok s)
  ∧ ((Sale.approvePayment clock s).isOk = false ↔ s.paymentStatus = PaymentStatus.rejected)
  ∧ ((Sale.rejectPayment clock s).isOk = false ↔ s.paymentStatus = PaymentStatus.approved)
  ∧ (s.paymentStatus = PaymentStatus.pending →
      Sale.approvePayment clock s =
        Except.ok { s with paymentStatus := PaymentStatus.approved, updatedAt := clock.ts }
      ∧ Sale.rejectPayment clock s =
        Except.ok { s with paymentStatus := PaymentStatus.rejected, updatedAt := clock.ts }) := by
  cases hs : s.paymentStatus <;>
    simp [Sale.approvePayment, Sale.rejectPayment, hs, exceptIsOk_ok, exceptIsOk_error]

theorem payment_transition_spec_witness :
    Sale.approvePayment clk0 s0 =
      Except.ok { s0 with paymentStatus := PaymentStatus.approved, updatedAt := clk0.ts }
    ∧ Sale.rejectPayment clk0 s0 =
      Except.ok { s0 with paymentStatus := PaymentStatus.rejected, updatedAt := clk0.ts } :=
  (payment_transition_spec clk0 s0).2.2.2.2 (by decide)

/-! ### Vehicle status machine (claim C6) -/

/-- C6 (confirmed): `mark_as_sold` fails exactly when the vehicle is not
AVAILABLE, and otherwise sets the status to SOLD and bumps `updated_at`;
a second call on the result always fails, so the transition is one-way
and the operation is not idempotent. -/
theorem markAsSold_spec (clock clock2 : Clock) (v : Vehicle) :
    ((Vehicle.markAsSold clock v).isOk = false ↔ v.status ≠ VehicleStatus.available)
  ∧ (v.status = VehicleStatus.available →
      Vehicle.markAsSold clock v =
        Except.ok { v with status := VehicleStatus.sold, updatedAt := clock.ts })
  ∧ (v.status = VehicleStatus.available →
      ∀ v2, Vehicle.markAsSold clock v = Except.ok v2 →
        (Vehicle.markAsSold clock2 v2).isOk = false) := by
  refine ⟨?_, ?_, ?_⟩
  · cases hv : v.status <;>
      simp [Vehicle.markAsSold, Vehicle.isAvailable, hv, exceptIsOk_ok, exceptIsOk_error]
  · intro hv
    simp [Vehicle.markAsSold, Vehicle.isAvailable, hv]
  · intro hv v2 h2
    simp [Vehicle.markAsSold, Vehicle.isAvailable, hv] at h2
    simp [Vehicle.markAsSold, Vehicle.isAvailable, ← h2, exceptIsOk_error]

theorem markAsSold_spec_witness :
    Vehicle.markAsSold clk0 v0 =
      Except.ok { v0 with status := VehicleStatus.sold, updatedAt := clk0.ts } :=
  (markAsSold_spec clk0 clk0 v0).2.1 (by decide)

/-! ### Reduction lemmas for the `Except` monad -/

theorem exBind_ok {e a b : Type} (x : a) (f : a → Except e b) :
    (Except.ok x : Except e a) >>= f = f x := rfl

theorem exBind_error {e a b : Type} (err : e) (f : a → Except e b) :
    (Except.error err : Except e a) >>= f = Except.error err := rfl

theorem exMap_ok {e a b : Type} (f : a → b) (x : a) :
    f <$> (Except.ok x : Except e a) = Except.ok (f x) := rfl

theorem exMap_error {e a b : Type} (f : a → b) (err : e) :
    f <$> (Except.error err : Except e a) = Except.error err := rfl

theorem exPure {e a : Type} (x : a) : (pure x : Except e a) = Except.ok x := rfl

/-! ### CPF validation (claim C4) -/

/-- C4 counterexample: the claimed fixture `111.444.777-36` is rejected
by the code (its second check digit is 5, not 6). -/
theorem cpf_fixture_counterexample :
    validateCpf ("111.444.777-36".data) = Except.error ("CPF inválido") := by decide

/-- C4 (corrected): acceptance is exactly "digits-only form has 11
digits, not all identical, and both check digits match"; the stored
value is the `XXX.XXX.XXX-XX` rendering; `529.982.247-25` and
`111.444.777-35` are accepted, `111.111.111-11` and `123.456.789-00`
rejected.  (The original claim named `111.444.777-36` as accepted;
the code rejects it.) -/
theorem cpf_validation_spec :
    (∀ s : List Char, (validateCpf s).isOk = true ↔
        ((digitsOnly s).length = 11 ∧ allSameChar (digitsOnly s) = false ∧
          cpfAlgorithm (digitsOnly s) = true))
  ∧ (∀ s out, validateCpf s = Except.ok out → out = formatCpf (digitsOnly s))
  ∧ validateCpf ("529.982.247-25".data) = Except.ok ("529.982.247-25".data)
  ∧ validateCpf ("111.444.777-35".data) = Except.ok ("111.444.777-35".data)
  ∧ validateCpf ("111.111.111-11".data) =
      Except.error ("CPF não pode ter todos os dígitos iguais")
  ∧ validateCpf ("123.456.789-00".data) = Except.error ("CPF inválido") := by
  refine ⟨?_, ?_, by decide, by decide, by decide, by decide⟩
  · intro s
    simp only [validateCpf]
    split_ifs with h1 h2 h3 h4
    · subst h1
      simp [digitsOnly, exceptIsOk_error]
    · simp only [exceptIsOk_error, Bool.false_eq_true, false_iff]
      intro hx
      exact h2 hx.1
    · simp only [exceptIsOk_error, Bool.false_eq_true, false_iff]
      intro hx
      rw [hx.2.1] at h3
      exact Bool.false_ne_true h3
    · simp only [exceptIsOk_ok, true_iff]
      refine ⟨not_not.1 h2, ?_, h4⟩
      cases hb : allSameChar (digitsOnly s)
      · rfl
      · exact absurd hb h3
    · simp only [exceptIsOk_error, Bool.false_eq_true, false_iff]
      intro hx
      exact h4 hx.2.2
  · intro s out h
    simp only [validateCpf] at h
    split_ifs at h
    exact (Except.ok.inj h).symm

theorem cpf_validation_spec_witness :
    ("529.982.247-25".data) = formatCpf (digitsOnly ("529.982.247-25".data)) :=
  cpf_validation_spec.2.1 ("529.982.247-25".data) ("529.982.247-25".data) (by decide)

/-! ### Brand and color validation (claim C8) -/

theorem validateBrand_ok_inv (s out : List Char) (h : validateBrand s = Except.ok out) :
    out = pyTitle (pyStrip s) := by
  simp only [validateBrand] at h
  split_ifs at h
  exact (Except.ok.inj h).symm

theorem validateColor_ok_inv (s out : List Char) (h : validateColor s = Except.ok out) :
    out = pyTitle (pyStrip s) := by
  simp only [validateColor] at h
  split_ifs at h
  exact (Except.ok.inj h).symm

/-- C8 (confirmed): a brand (resp. color) string validates exactly when
its trimmed form has length in `[2, 50]` (resp. `[3, 30]`) and contains
only letters/digits/whitespace (resp. letters/whitespace); the stored
value is always the trimmed, title-cased input — also on the update
path through `update_details`. -/
theorem brand_color_validation_spec (s : List Char) :
    ((validateBrand s).isOk = true ↔
      (2 ≤ (pyStrip s).length ∧ (pyStrip s).length ≤ 50 ∧
        (pyStrip s).all (fun c => isAsciiAlnum c ∨ isPySpace c) = true))
  ∧ (∀ out, validateBrand s = Except.ok out → out = pyTitle (pyStrip s))
  ∧ ((validateColor s).isOk = true ↔
      (3 ≤ (pyStrip s).length ∧ (pyStrip s).length ≤ 30 ∧
        (pyStrip s).all (fun c => isAsciiAlpha c ∨ isPySpace c) = true))
  ∧ (∀ out, validateColor s = Except.ok out → out = pyTitle (pyStrip s))
  ∧ (∀ clock v out, v.status = VehicleStatus.available → s ≠ [] →
      Vehicle.updateDetails clock v (some s) none none none = Except.ok out →
      out.brand = pyTitle (pyStrip s))
  ∧ (∀ clock v out, v.status = VehicleStatus.available → s ≠ [] →
      Vehicle.updateDetails clock v none none none (some s) = Except.ok out →
      out.color = pyTitle (pyStrip s)) := by
  refine ⟨?_, fun out h => validateBrand_ok_inv s out h, ?_,
    fun out h => validateColor_ok_inv s out h, ?_, ?_⟩
  · simp only [validateBrand]
    split_ifs with h1 h2 h3 h4
    · subst h1
      simp [pyStrip, exceptIsOk_error]
    · simp only [exceptIsOk_error, Bool.false_eq_true, false_iff]
      intro hx
      exact absurd hx.1 (not_le.2 h2)
    · simp only [exceptIsOk_error, Bool.false_eq_true, false_iff]
      intro hx
      exact absurd hx.2.1 (not_le.2 h3)
    · simp only [exceptIsOk_ok, true_iff]
      exact ⟨not_lt.1 h2, not_lt.1 h3, h4⟩
    · simp only [exceptIsOk_error, Bool.false_eq_true, false_iff]
      intro hx
      exact h4 hx.2.2
  · simp only [validateColor]
    split_ifs with h1 h2 h3 h4
    · subst h1
      simp [pyStrip, exceptIsOk_error]
    · simp only [exceptIsOk_error, Bool.false_eq_true, false_iff]
      intro hx
      exact absurd hx.1 (not_le.2 h2)
    · simp only [exceptIsOk_error, Bool.false_eq_true, false_iff]
      intro hx
      exact absurd hx.2.1 (not_le.2 h3)
    · simp only [exceptIsOk_ok, true_iff]
      exact ⟨not_lt.1 h2, not_lt.1 h3, h4⟩
    · simp only [exceptIsOk_error, Bool.false_eq_true, false_iff]
      intro hx
      exact h4 hx.2.2
  · intro clock v out hv hs h
    simp only [Vehicle.updateDetails, Vehicle.isAvailable, hv, truthyStr, truthyInt,
      Option.getD_some, Option.getD_none] at h
    simp only [hs, decide_True, decide_False, decide_not, ne_eq, not_false_eq_true,
      not_true_eq_false, Bool.not_true, Bool.not_false, if_true, if_false,
      Bool.false_eq_true, exPure, exBind_ok] at h
    cases hb : validateBrand s with
    | error e =>
        rw [hb] at h
        exact absurd h (by simp [exBind_error])
    | ok b =>
        rw [hb, exBind_ok] at h
        rw [← Except.ok.inj h]
        exact validateBrand_ok_inv s b hb
  · intro clock v out hv hs h
    simp only [Vehicle.updateDetails, Vehicle.isAvailable, hv, truthyStr, truthyInt,
      Option.getD_some, Option.getD_none] at h
    simp only [hs, decide_True, decide_False, decide_not, ne_eq, not_false_eq_true,
      not_true_eq_false, Bool.not_true, Bool.not_false, if_true, if_false,
      Bool.false_eq_true, exPure, exBind_ok] at h
    cases hb : validateColor s with
    | error e =>
        rw [hb] at h
        exact absurd h (by simp [exBind_error])
    | ok b =>
        rw [hb, exBind_ok] at h
        rw [← Except.ok.inj h]
        exact validateColor_ok_inv s b hb

theorem brand_color_validation_spec_witness :
    ("  toyota HILUX  ".data ≠ ([] : List Char)) ∧
    (pyTitle (pyStrip ("  toyota HILUX  ".data)) = "Toyota Hilux".data) ∧
    (∀ out, validateBrand ("  toyota HILUX  ".data) = Except.ok out →
      out = pyTitle (pyStrip ("  toyota HILUX  ".data))) :=
  ⟨by decide, by decide, (brand_color_validation_spec ("  toyota HILUX  ".data)).2.1⟩

/-! ### Inversion lemmas for the entity constructors -/

theorem validateVehicleId_ok_inv (x y : ℤ) (h : validateVehicleId x = Except.ok y) :
    y = x ∧ 0 < x := by
  unfold validateVehicleId at h
  split_ifs at h with h1
  exact ⟨(Except.ok.inj h).symm, not_le.1 h1⟩

theorem validateSaleDate_ok_inv (clock : Clock) (sd y : ℤ)
    (h : validateSaleDate clock sd = Except.ok y) : y = sd := by
  unfold validateSaleDate at h
  split_ifs at h
  exact (Except.ok.inj h).symm

theorem validateYear_ok_inv (clock : Clock) (x y : ℤ)
    (h : validateYear clock x = Except.ok y) : y = x := by
  unfold validateYear at h
  split_ifs at h
  exact (Except.ok.inj h).symm

theorem saleMake_ok_inv (clock : Clock) (vid : ℤ) (cpf : List Char) (sd : ℤ) (a : ℚ)
    (id : Option ℤ) (st : PaymentStatus) (ca ua : Option ℤ) (s : Sale)
    (h : Sale.make clock vid cpf sd a id st ca ua = Except.ok s) :
    s.id = id ∧ s.vehicleId = vid ∧ 0 < vid ∧ s.saleDate = sd ∧
    s.paymentStatus = st ∧ s.createdAt = ca.getD clock.ts ∧
    s.updatedAt = ua.getD clock.ts ∧ validateCpf cpf = Except.ok s.customerCpf ∧
    validateAmount a = Except.ok s.amount ∧
    validateSaleDate clock sd = Except.ok sd := by
  unfold Sale.make at h
  cases h1 : validateVehicleId vid with
  | error e => rw [h1, exBind_error] at h; cases h
  | ok vv =>
    rw [h1, exBind_ok] at h
    cases h2 : validateCpf cpf with
    | error e => rw [h2, exBind_error] at h; cases h
    | ok cc =>
      rw [h2, exBind_ok] at h
      cases h3 : validateSaleDate clock sd with
      | error e => rw [h3, exBind_error] at h; cases h
      | ok dd =>
        rw [h3, exBind_ok] at h
        cases h4 : validateAmount a with
        | error e => rw [h4, exBind_error] at h; cases h
        | ok aa =>
          rw [h4, exBind_ok, exPure] at h
          obtain ⟨hvv, hvpos⟩ := validateVehicleId_ok_inv vid vv h1
          have hdd := validateSaleDate_ok_inv clock sd dd h3
          subst hvv hdd
          obtain rfl := Except.ok.inj h
          exact ⟨rfl, rfl, hvpos, rfl, rfl, rfl, rfl, rfl, rfl, rfl⟩

theorem vehicleMake_ok_inv (clock : Clock) (b m : List Char) (yr : ℤ) (p : ℚ)
    (c : List Char) (id : Option ℤ) (st : VehicleStatus) (ca ua : Option ℤ) (v : Vehicle)
    (h : Vehicle.make clock b m yr p c id st ca ua = Except.ok v) :
    v.id = id ∧ v.status = st ∧ v.year = yr ∧ v.createdAt = ca.getD clock.ts ∧
    v.updatedAt = ua.getD clock.ts ∧ validateBrand b = Except.ok v.brand ∧
    validateModel m = Except.ok v.model ∧ validatePrice p = Except.ok v.price ∧
    validateColor c = Except.ok v.color := by
  unfold Vehicle.make at h
  cases h1 : validateBrand b with
  | error e => rw [h1, exBind_error] at h; cases h
  | ok bb =>
    rw [h1, exBind_ok] at h
    cases h2 : validateModel m with
    | error e => rw [h2, exBind_error] at h; cases h
    | ok mm =>
      rw [h2, exBind_ok] at h
      cases h3 : validateYear clock yr with
      | error e => rw [h3, exBind_error] at h; cases h
      | ok yy =>
        rw [h3, exBind_ok] at h
        cases h4 : validatePrice p with
        | error e => rw [h4, exBind_error] at h; cases h
        | ok pp =>
          rw [h4, exBind_ok] at h
          cases h5 : validateColor c with
          | error e => rw [h5, exBind_error] at h; cases h
          | ok cc =>
            rw [h5, exBind_ok, exPure] at h
            have hyy := validateYear_ok_inv clock yr yy h3
            subst hyy
            obtain rfl := Except.ok.inj h
            exact ⟨rfl, rfl, rfl, rfl, rfl, rfl, rfl, rfl, rfl⟩

/-! ### Falsy arguments on the update path (claim C10) -/

/-- C10 (confirmed): `update_details` skips every falsy argument
(`None`, `""`, `0`) without validating it, leaving the field unchanged;
and `UpdateVehicleUseCase.execute` with all field arguments falsy and
`price=None` performs no entity mutation at all — in particular it does
not fail INVALID_STATE even on a SOLD vehicle — and persists and
returns the loaded vehicle unchanged. -/
theorem falsy_update_spec :
    (∀ (clock : Clock) (v : Vehicle) (b m : Option (List Char)) (y : Option ℤ)
        (c : Option (List Char)),
      v.status = VehicleStatus.available →
      (b = none ∨ b = some []) → (m = none ∨ m = some []) →
      (y = none ∨ y = some 0) → (c = none ∨ c = some []) →
      Vehicle.updateDetails clock v b m y c =
        Except.ok { v with updatedAt := clock.ts })
  ∧ (∀ (clock : Clock) (db : DB) (vid : ℤ) (v : Vehicle) (b m : Option (List Char))
        (y : Option ℤ) (c : Option (List Char)),
      vid ≠ 0 → findVehicle db vid = some v →
      (b = none ∨ b = some []) → (m = none ∨ m = some []) →
      (y = none ∨ y = some 0) → (c = none ∨ c = some []) →
      updateVehicleUC clock db vid b m y c none =
        (Except.ok v,
         { db with vehicles := db.vehicles.map (fun w => if w.id = some vid then v else w) })) := by
  constructor
  · intro clock v b m y c hv hb hm hy hc
    rcases hb with rfl | rfl <;> rcases hm with rfl | rfl <;>
      rcases hy with rfl | rfl <;> rcases hc with rfl | rfl <;>
      simp [Vehicle.updateDetails, Vehicle.isAvailable, hv, truthyStr, truthyInt,
        exPure, exBind_ok]
  · intro clock db vid v b m y c hvid hfind hb hm hy hc
    have hfind' : db.vehicles.find? (fun x => decide (x.id = some vid)) = some v := hfind
    have hvId : v.id = some vid := by simpa using List.find?_some hfind'
    unfold updateVehicleUC
    rw [hfind]
    rcases hb with rfl | rfl <;> rcases hm with rfl | rfl <;>
      rcases hy with rfl | rfl <;> rcases hc with rfl | rfl <;>
      simp [truthyStr, truthyInt, updateVehicleDb, hvId, hvid, hfind']

theorem falsy_update_spec_witness :
    updateVehicleUC clk0
        { db0 with vehicles := [{ v0 with status := VehicleStatus.sold }] } 1
        none none none none none =
      (Except.ok { v0 with status := VehicleStatus.sold },
       { db0 with vehicles := [{ v0 with status := VehicleStatus.sold }] }) :=
  (falsy_update_spec.2 clk0
      { db0 with vehicles := [{ v0 with status := VehicleStatus.sold }] } 1
      { v0 with status := VehicleStatus.sold } none none none none
      (by decide) (by decide) (Or.inl rfl) (Or.inl rfl) (Or.inl rfl)
      (Or.inl rfl)).trans (by decide)

/-! ### Payment webhook (claim C1) -/

theorem updatePaymentStatus_error_db (clock : Clock) (db : DB) (sid : ℤ)
    (st : List Char) (e : String) (db2 : DB)
    (h : updatePaymentStatusExec clock db sid st = (Except.error e, db2)) :
    db2 = db := by
  unfold updatePaymentStatusExec at h
  split at h
  · exact ((Prod.mk.inj h).2).symm
  · split at h
    · exact ((Prod.mk.inj h).2).symm
    · split at h
      · exact ((Prod.mk.inj h).2).symm
      · split at h
        · exact ((Prod.mk.inj h).2).symm
        · cases ((Prod.mk.inj h).1)

/-- C1 counterexample: a payload without the `sale_id` key makes
`ProcessPaymentWebhookUseCase.execute` raise `ValueError` (the
required-field check runs before the `try` block), instead of returning
a structured `success: false` result. -/
theorem webhook_missing_field_raises :
    processPaymentWebhook clk0 db0
        { saleId := none, status := some ("approved".data), previousStatus := none } =
      (Except.error ("Campo obrigatório ausente: sale_id"), db0) := by decide

/-- C1 (corrected): for payloads that do contain both required keys with
an integer `sale_id`, the webhook never raises: it returns a structured
result, `success: true` with no error key on the update path, and
`success: false` carrying the input `sale_id` and an error message —
with the store left untouched — on every domain failure (nonexistent
sale, invalid status string, conflicting transition).  Payloads missing
a required key or carrying a non-integer `sale_id` raise instead. -/
theorem webhook_structured_result (clock : Clock) (db : DB) (n : ℤ)
    (st : List Char) (prev : Option (List Char)) :
    ∃ r, (processPaymentWebhook clock db
        { saleId := some (PyVal.int n), status := some st, previousStatus := prev }).1 =
          Except.ok r ∧
      ((r.success = true ∧ r.errorMsg = none ∧ r.currentStatus ≠ none ∧ r.timestamp = clock.ts) ∨
       (r.success = false ∧ r.saleId = some n ∧ r.errorMsg ≠ none ∧ r.timestamp = clock.ts ∧
        (processPaymentWebhook clock db
          { saleId := some (PyVal.int n), status := some st, previousStatus := prev }).2 = db)) := by
  rcases hres : updatePaymentStatusExec clock db n st with ⟨res, db2⟩
  cases res with
  | ok s2 =>
      refine ⟨{ success := true, saleId := s2.id,
                previousStatus := some (prev.getD ("unknown".data)),
                currentStatus := some (payStatusStr s2.paymentStatus),
                errorMsg := none,
                message := "Status de pagamento atualizado com sucesso",
                timestamp := clock.ts }, ?_, Or.inl ⟨rfl, rfl, by simp, rfl⟩⟩
      unfold processPaymentWebhook
      dsimp only
      rw [hres]
  | error e =>
      refine ⟨{ success := false, saleId := some n,
                previousStatus := none, currentStatus := none,
                errorMsg := some e,
                message := "Erro ao processar webhook de pagamento",
                timestamp := clock.ts }, ?_, Or.inr ⟨rfl, rfl, by simp, rfl, ?_⟩⟩
      · unfold processPaymentWebhook
        dsimp only
        rw [hres]
      · have hdb := updatePaymentStatus_error_db clock db n st e db2 hres
        unfold processPaymentWebhook
        dsimp only
        rw [hres]
        exact hdb

/-! ### Sale creation (claims C2 and C3) -/

theorem digitsOnly_formatCpf (d : List Char) (hd : ∀ c ∈ d, c.isDigit = true) :
    digitsOnly (formatCpf d) = d := by
  have hA : (d.take 3).filter Char.isDigit = d.take 3 :=
    List.filter_eq_self.2 (fun c hc => hd c (List.mem_of_mem_take hc))
  have hB : ((d.drop 3).take 3).filter Char.isDigit = (d.drop 3).take 3 :=
    List.filter_eq_self.2
      (fun c hc => hd c (List.mem_of_mem_drop (List.mem_of_mem_take hc)))
  have hC : ((d.drop 6).take 3).filter Char.isDigit = (d.drop 6).take 3 :=
    List.filter_eq_self.2
      (fun c hc => hd c (List.mem_of_mem_drop (List.mem_of_mem_take hc)))
  have hE : (d.drop 9).filter Char.isDigit = d.drop 9 :=
    List.filter_eq_self.2 (fun c hc => hd c (List.mem_of_mem_drop hc))
  have hdot : ('.' : Char).isDigit = false := by decide
  have hdash : ('-' : Char).isDigit = false := by decide
  unfold digitsOnly formatCpf
  simp only [List.filter_append, List.filter_cons, hdot, hdash, hA, hB, hC, hE,
    Bool.false_eq_true, if_false]
  have e1 : d.drop 9 = (d.drop 6).drop 3 := by simp [List.drop_drop]
  have e2 : d.drop 6 = (d.drop 3).drop 3 := by simp [List.drop_drop]
  rw [e1, List.take_append_drop, e2, List.take_append_drop, List.take_append_drop]

/-- A CPF string accepted by `_validate_cpf` re-validates to itself in
its stored `XXX.XXX.XXX-XX` form. -/
theorem validateCpf_idem (s out : List Char) (h : validateCpf s = Except.ok out) :
    validateCpf out = Except.ok out := by
  simp only [validateCpf] at h
  split_ifs at h with h1 h2 h3 h4
  obtain rfl := Except.ok.inj h
  have hlen : (digitsOnly s).length = 11 := not_not.1 h2
  have hall : allSameChar (digitsOnly s) = false := by
    cases hb : allSameChar (digitsOnly s)
    · rfl
    · exact absurd hb h3
  have hdig : ∀ c ∈ digitsOnly s, c.isDigit = true := fun c hc => List.of_mem_filter hc
  have hro : digitsOnly (formatCpf (digitsOnly s)) = digitsOnly s :=
    digitsOnly_formatCpf (digitsOnly s) hdig
  have hne : formatCpf (digitsOnly s) ≠ [] := by
    unfold formatCpf
    simp
  simp only [validateCpf, hro]
  rw [if_neg hne, if_neg (by simp [hlen]), if_neg (by simp [hall]),
    if_neg (by simp [h4])]

/-- Two-decimal values are fixed points of the two-decimal quantization. -/
theorem quantize2_twoDec_fix (k : ℤ) : quantize2 ((k : ℚ)/100) = (k : ℚ)/100 := by
  have harg : |((100 * ((k : ℚ)/100).num : ℤ) : ℚ) / (((((k : ℚ)/100).den : ℕ) : ℤ) : ℚ)
      - (k : ℚ)| < 1/2 := by
    rw [scaled_val]
    have h100 : (100 : ℚ) * ((k : ℚ)/100) = (k : ℚ) := by field_simp
    rw [h100, sub_self, abs_zero]
    norm_num
  have h := rheND_eq_of_near (100 * ((k : ℚ)/100).num) ((((k : ℚ)/100).den : ℕ) : ℤ) k
    (den_pos_int ((k : ℚ)/100)) harg
  rw [quantize2_eq, h]

/-- A stored (already-quantized) positive amount re-validates to itself. -/
theorem validateAmount_stored (x y : ℚ) (h : validateAmount x = Except.ok y)
    (hy : 0 < y) : validateAmount y = Except.ok y := by
  obtain ⟨hx0, hxm, hyq⟩ := validateAmount_ok_inv x y h
  have hym : y ≤ maxMoney := by
    rw [hyq]
    exact quantize2_le_max x hxm
  obtain ⟨k, hk⟩ : ∃ k : ℤ, y = (k : ℚ)/100 := by
    rw [hyq]
    exact quantize2_twoDec x
  unfold validateAmount
  rw [if_neg (not_le.2 hy), if_neg (not_lt.2 hym), hk, quantize2_twoDec_fix, ← hk]

/-- The stored sale row rebuilt by the gateway re-validates to itself
when each stored field re-validates. -/
theorem saleRemake_ok (clock : Clock) (sale : Sale) (N : ℤ)
    (hvid : 0 < sale.vehicleId)
    (hcpf : validateCpf sale.customerCpf = Except.ok sale.customerCpf)
    (hdate : validateSaleDate clock sale.saleDate = Except.ok sale.saleDate)
    (hamt : validateAmount sale.amount = Except.ok sale.amount) :
    Sale.make clock sale.vehicleId sale.customerCpf sale.saleDate sale.amount
      (some N) sale.paymentStatus (some clock.ts) (some clock.ts) =
      Except.ok { sale with id := some N, createdAt := clock.ts, updatedAt := clock.ts } := by
  unfold Sale.make
  rw [show validateVehicleId sale.vehicleId = Except.ok sale.vehicleId from by
    unfold validateVehicleId
    rw [if_neg (not_le.2 hvid)]]
  rw [exBind_ok, hcpf, exBind_ok, hdate, exBind_ok, hamt, exBind_ok, exPure]
  rfl

/-- C2 (corrected): `CreateSaleUseCase.execute` fails NOT_FOUND when the
vehicle is absent, INVALID_STATE when it is not AVAILABLE, CONFLICT when
a sale already exists; otherwise it builds a Sale with status PENDING
and `sale_date = now` and inserts it — but the gateway re-validates the
stored row (`_dict_to_entity`) after the insert committed, so the full
success path (vehicle marked SOLD and persisted, stored sale returned)
holds exactly when the stored quantized amount is still positive; when
it quantized to `0.00` the call raises after the sale row committed,
with the vehicle left untouched. -/
theorem createSale_spec (clock : Clock) (db : DB) (vid : ℤ) (cpf : List Char)
    (amount : ℚ) :
    (findVehicle db vid = none →
      createSaleExec clock db vid cpf amount =
        (Except.error ("Veículo com ID " ++ toString vid ++ " não encontrado"), db))
  ∧ (∀ v : Vehicle, findVehicle db vid = some v →
      v.status ≠ VehicleStatus.available →
      createSaleExec clock db vid cpf amount =
        (Except.error ("Veículo não está disponível para venda"), db))
  ∧ (∀ (v : Vehicle) (s : Sale), findVehicle db vid = some v →
      v.status = VehicleStatus.available → findSaleByVehicleId db vid = some s →
      createSaleExec clock db vid cpf amount =
        (Except.error ("Veículo já possui uma venda registrada"), db))
  ∧ (∀ (v : Vehicle) (sale : Sale), findVehicle db vid = some v →
      v.status = VehicleStatus.available → findSaleByVehicleId db vid = none →
      Sale.make clock vid cpf clock.ts amount none PaymentStatus.pending none none =
        Except.ok sale →
      vid ≠ 0 → 0 < sale.amount →
      sale.paymentStatus = PaymentStatus.pending ∧ sale.saleDate = clock.ts ∧
      sale.id = none ∧
      createSaleExec clock db vid cpf amount =
        (Except.ok { sale with
            id := some db.nextSaleId
            createdAt := clock.ts
            updatedAt := clock.ts },
         { db with
            sales := db.sales ++ [{ sale with
              id := some db.nextSaleId
              createdAt := clock.ts
              updatedAt := clock.ts }]
            nextSaleId := db.nextSaleId + 1
            vehicles := db.vehicles.map (fun w => if w.id = some vid then { v with status := VehicleStatus.sold, updatedAt := clock.ts } else w) }))
  ∧ (∀ (v : Vehicle) (sale : Sale), findVehicle db vid = some v →
      v.status = VehicleStatus.available → findSaleByVehicleId db vid = none →
      Sale.make clock vid cpf clock.ts amount none PaymentStatus.pending none none =
        Except.ok sale →
      sale.amount = 0 →
      createSaleExec clock db vid cpf amount =
        (Except.error ("Valor da venda deve ser maior que zero"),
         { db with
            sales := db.sales ++ [{ sale with
              id := some db.nextSaleId
              createdAt := clock.ts
              updatedAt := clock.ts }]
            nextSaleId := db.nextSaleId + 1 })) := by
  refine ⟨?_, ?_, ?_, ?_, ?_⟩
  · intro hf
    simp [createSaleExec, hf]
  · intro v hf hv
    simp [createSaleExec, hf, Vehicle.isAvailable, hv]
  · intro v s hf hv hs
    simp [createSaleExec, hf, hs, Vehicle.isAvailable, hv]
  · intro v sale hf hv hsn hmake hvid hpos
    obtain ⟨hid, hvidq, hvpos, hsd, hps, hca, hua, hcpf, ham, hdate⟩ :=
      saleMake_ok_inv clock vid cpf clock.ts amount none PaymentStatus.pending
        none none sale hmake
    refine ⟨hps, hsd, hid, ?_⟩
    have hcpf2 : validateCpf sale.customerCpf = Except.ok sale.customerCpf :=
      validateCpf_idem cpf sale.customerCpf hcpf
    have hdate2 : validateSaleDate clock sale.saleDate = Except.ok sale.saleDate := by
      rw [hsd]
      exact hdate
    have hamt2 : validateAmount sale.amount = Except.ok sale.amount :=
      validateAmount_stored amount sale.amount ham hpos
    have hre := saleRemake_ok clock sale db.nextSaleId
      (by rw [hvidq]; exact hvpos) hcpf2 hdate2 hamt2
    have hfind' : db.vehicles.find? (fun x => decide (x.id = some vid)) = some v := hf
    have hvId : v.id = some vid := by simpa using List.find?_some hfind'
    unfold createSaleExec
    rw [hf]
    dsimp only
    rw [show v.isAvailable = true by simp [Vehicle.isAvailable, hv]]
    simp only [not_true, Bool.not_true, if_false, reduceIte]
    rw [hsn]
    dsimp only
    rw [hmake]
    dsimp only
    simp only [saveSale]
    rw [hre]
    dsimp only
    rw [show Vehicle.markAsSold clock v =
      Except.ok { v with status := VehicleStatus.sold, updatedAt := clock.ts } from by
        simp [Vehicle.markAsSold, Vehicle.isAvailable, hv]]
    dsimp only
    unfold updateVehicleDb
    dsimp only
    rw [hvId]
    have hcond : ¬(some vid = (none : Option ℤ) ∨ some vid = some 0) := by
      simp [hvid]
    rw [if_neg hcond]
    rw [hfind']
  · intro v sale hf hv hsn hmake hzero
    obtain ⟨hid, hvidq, hvpos, hsd, hps, hca, hua, hcpf, ham, hdate⟩ :=
      saleMake_ok_inv clock vid cpf clock.ts amount none PaymentStatus.pending
        none none sale hmake
    have hcpf2 : validateCpf sale.customerCpf = Except.ok sale.customerCpf :=
      validateCpf_idem cpf sale.customerCpf hcpf
    have hdate2 : validateSaleDate clock sale.saleDate = Except.ok sale.saleDate := by
      rw [hsd]
      exact hdate
    unfold createSaleExec
    rw [hf]
    dsimp only
    rw [show v.isAvailable = true by simp [Vehicle.isAvailable, hv]]
    simp only [not_true, Bool.not_true, if_false, reduceIte]
    rw [hsn]
    dsimp only
    rw [hmake]
    dsimp only
    simp only [saveSale]
    rw [show Sale.make clock sale.vehicleId sale.customerCpf sale.saleDate sale.amount
        (some db.nextSaleId) sale.paymentStatus (some clock.ts) (some clock.ts) =
        Except.error ("Valor da venda deve ser maior que zero") from by
      unfold Sale.make
      rw [show validateVehicleId sale.vehicleId = Except.ok sale.vehicleId from by
        unfold validateVehicleId
        rw [if_neg (not_le.2 (by rw [hvidq]; exact hvpos))]]
      rw [exBind_ok, hcpf2, exBind_ok, hdate2, exBind_ok, hzero]
      rw [show validateAmount 0 = Except.error ("Valor da venda deve ser maior que zero")
        from by decide]
      rw [exBind_error]]

theorem createSale_spec_witness :
    s0.paymentStatus = PaymentStatus.pending ∧ s0.saleDate = clk0.ts ∧
    s0.id = none ∧
    createSaleExec clk0 db0 1 cpf0 100 =
      (Except.ok { s0 with
          id := some db0.nextSaleId
          createdAt := clk0.ts
          updatedAt := clk0.ts },
       { db0 with
          sales := db0.sales ++ [{ s0 with
            id := some db0.nextSaleId
            createdAt := clk0.ts
            updatedAt := clk0.ts }]
          nextSaleId := db0.nextSaleId + 1
          vehicles := db0.vehicles.map (fun w => if w.id = some 1 then { v0 with status := VehicleStatus.sold, updatedAt := clk0.ts } else w) }) :=
  (createSale_spec clk0 db0 1 cpf0 100).2.2.2.1 v0 s0 (by decide) (by decide)
    (by decide) (by decide) (by decide) (by decide)

/-- C2 counterexample: with vehicle 1 AVAILABLE and no prior sale, the
amount `0.004` passes every check the claim names and the Sale entity
validates, yet `CreateSaleUseCase.execute` raises: the gateway rebuilds
the stored row after the committed insert and its amount was quantized
to `0.00` — the sale row stays visible, the vehicle is never marked
SOLD, and no saved Sale is returned. -/
theorem createSale_revalidation_counterexample :
    (createSaleExec clk0 db0 1 cpf0 (Rat.divInt 1 250)).1 =
        Except.error ("Valor da venda deve ser maior que zero")
  ∧ findVehicle (createSaleExec clk0 db0 1 cpf0 (Rat.divInt 1 250)).2 1 = some v0
  ∧ findSaleByVehicleId (createSaleExec clk0 db0 1 cpf0 (Rat.divInt 1 250)).2 1 =
      some { s0 with amount := 0, id := some 1 } :=
  ⟨by decide, by decide, by decide⟩

/-- C3 (code bug): `CreateSaleUseCase.execute` commits the Sale insert
before the two vehicle writes; if the vehicle update raises after the
sale insert was committed (modelled by `vehicleWriteOk = false`),
nothing rolls the sale back — the call reports failure, yet the new
Sale row is visible and the vehicle is still AVAILABLE, violating the
"both writes or neither" requirement. -/
theorem createSale_not_atomic :
    (createSaleRun clk0 db0 1 cpf0 100 false).1 =
        Except.error ("Erro ao atualizar veículo")
  ∧ findSaleByVehicleId (createSaleRun clk0 db0 1 cpf0 100 false).2 1 =
      some { s0 with id := some 1 }
  ∧ findVehicle (createSaleRun clk0 db0 1 cpf0 100 false).2 1 = some v0
  ∧ v0.status = VehicleStatus.available :=
  ⟨by decide, by decide, by decide, by decide⟩

/-! ### The binary64 boundary (claim C7) -/

theorem rhe_abs (z : ℚ) : |(rhe z : ℚ) - z| ≤ 1/2 := by
  have h := rheND_abs z.num (z.den : ℤ) (den_pos_int z)
  have hz : ((z.num : ℤ) : ℚ) / (((z.den : ℤ) : ℤ) : ℚ) = z := by
    push_cast
    exact Rat.num_div_den z
  unfold rhe
  calc |(rheND z.num (z.den : ℤ) : ℚ) - z|
      = |(rheND z.num (z.den : ℤ) : ℚ) - (z.num : ℚ) / ((z.den : ℤ) : ℚ)| := by
        rw [show ((z.num : ℚ) / ((z.den : ℤ) : ℚ)) = z by push_cast; exact Rat.num_div_den z]
    _ ≤ 1/2 := by
        have h2 := h
        push_cast at h2 ⊢
        exact h2

theorem zpow_two_pos (e : ℤ) : (0 : ℚ) < (2 : ℚ) ^ e := zpow_pos (by norm_num) e

theorem roundB64_err (y : ℚ) (hy : 0 < y) :
    |roundB64 y - y| ≤ (2 : ℚ) ^ (Int.log 2 y - 52) / 2 := by
  have hu : (0 : ℚ) < (2 : ℚ) ^ (Int.log 2 y - 52) := zpow_two_pos _
  have habs := rhe_abs (y / (2 : ℚ) ^ (Int.log 2 y - 52))
  unfold roundB64
  rw [if_neg (not_le.2 hy)]
  have hkey : (rhe (y / (2 : ℚ) ^ (Int.log 2 y - 52)) : ℚ) * (2 : ℚ) ^ (Int.log 2 y - 52) - y
      = ((rhe (y / (2 : ℚ) ^ (Int.log 2 y - 52)) : ℚ) -
          y / (2 : ℚ) ^ (Int.log 2 y - 52)) * (2 : ℚ) ^ (Int.log 2 y - 52) := by
    field_simp
  rw [hkey, abs_mul, abs_of_pos hu]
  calc |(rhe (y / (2 : ℚ) ^ (Int.log 2 y - 52)) : ℚ) - y / (2 : ℚ) ^ (Int.log 2 y - 52)| *
        (2 : ℚ) ^ (Int.log 2 y - 52)
      ≤ (1/2) * (2 : ℚ) ^ (Int.log 2 y - 52) := by
        exact mul_le_mul_of_nonneg_right habs hu.le
    _ = (2 : ℚ) ^ (Int.log 2 y - 52) / 2 := by ring

theorem log2_le_of_lt (y : ℚ) (e : ℤ) (hy : 0 < y) (h : y < (2 : ℚ) ^ (e + 1)) :
    Int.log 2 y ≤ e := by
  by_contra hc
  push_neg at hc
  have h1 : (2 : ℚ) ^ (e + 1) ≤ (2 : ℚ) ^ (Int.log 2 y) :=
    zpow_le_zpow_right₀ (by norm_num) (by omega)
  have h2 : ((2 : ℕ) : ℚ) ^ (Int.log 2 y) ≤ y := Int.zpow_log_le_self (by norm_num) hy
  push_cast at h2
  linarith

/-- A two-decimal value in the monetary range survives the
Decimal → binary64 → shortest-repr-Decimal round trip: any two-decimal
rational `p` that rounds to the same binary64 as `x` equals `x`. -/
theorem float_repr_roundtrip (x p : ℚ)
    (hx2 : ∃ k : ℤ, x = (k : ℚ) / 100) (hp2 : ∃ k : ℤ, p = (k : ℚ) / 100)
    (hx0 : (1 : ℚ)/100 ≤ x) (hxm : x ≤ maxMoney)
    (hb : roundB64 p = roundB64 x) : p = x := by
  obtain ⟨kx, hkx⟩ := hx2
  obtain ⟨kp, hkp⟩ := hp2
  have hx0' : (0 : ℚ) < x := lt_of_lt_of_le (by norm_num) hx0
  have hex : Int.log 2 x ≤ 23 := by
    apply log2_le_of_lt x 23 hx0'
    rw [maxMoney_eq] at hxm
    rw [show ((2:ℚ))^((23:ℤ)+1) = 16777216 by norm_num]
    linarith
  have herrx : |roundB64 x - x| ≤ 1/1073741824 := by
    have h1 := roundB64_err x hx0'
    have h2 : (2:ℚ)^(Int.log 2 x - 52) ≤ (2:ℚ)^(-(29:ℤ)) :=
      zpow_le_zpow_right₀ (by norm_num) (by omega)
    have h3 : (2:ℚ)^(-(29:ℤ)) = 1/536870912 := by norm_num
    rw [h3] at h2
    linarith
  have hfx := abs_le.1 herrx
  have hp0 : (0 : ℚ) < p := by
    by_contra hc
    push_neg at hc
    have h0 : roundB64 p = 0 := by
      unfold roundB64
      rw [if_pos hc]
    rw [h0] at hb
    have : (1:ℚ)/100 - 1/1073741824 ≤ roundB64 x := by linarith [hfx.1]
    rw [← hb] at this
    norm_num at this
  have hfub : roundB64 x < 16777216 := by
    rw [maxMoney_eq] at hxm
    linarith [hfx.2]
  have hep : Int.log 2 p ≤ 24 := by
    by_contra hc
    push_neg at hc
    have hlow : ((2:ℕ):ℚ)^(Int.log 2 p) ≤ p := Int.zpow_log_le_self (by norm_num) hp0
    push_cast at hlow
    have h25 : (2:ℚ)^(25:ℤ) ≤ (2:ℚ)^(Int.log 2 p) :=
      zpow_le_zpow_right₀ (by norm_num) (by omega)
    rw [show (2:ℚ)^(25:ℤ) = 33554432 by norm_num] at h25
    have hp25 : (33554432 : ℚ) ≤ p := le_trans h25 hlow
    have herrp := roundB64_err p hp0
    have hsplit : (2:ℚ)^(Int.log 2 p - 52) = (2:ℚ)^(Int.log 2 p) * (2:ℚ)^(-(52:ℤ)) := by
      rw [← zpow_add₀ (by norm_num : (2:ℚ) ≠ 0)]
      ring_nf
    have hple : (2:ℚ)^(Int.log 2 p - 52) ≤ p * (2:ℚ)^(-(52:ℤ)) := by
      rw [hsplit]
      exact mul_le_mul_of_nonneg_right hlow (zpow_two_pos _).le
    rw [show (2:ℚ)^(-(52:ℤ)) = 1/4503599627370496 by norm_num] at hple
    have h1 := abs_le.1 herrp
    have hge : p / 2 ≤ roundB64 p := by nlinarith [hp0]
    rw [hb] at hge
    linarith
  have herrp2 : |roundB64 p - p| ≤ 1/536870912 := by
    have h1 := roundB64_err p hp0
    have h2 : (2:ℚ)^(Int.log 2 p - 52) ≤ (2:ℚ)^(-(28:ℤ)) :=
      zpow_le_zpow_right₀ (by norm_num) (by omega)
    have h3 : (2:ℚ)^(-(28:ℤ)) = 1/268435456 := by norm_num
    rw [h3] at h2
    linarith
  have hclose : |p - x| < 1/100 := by
    have h1 := abs_le.1 herrp2
    rw [hb] at h1
    have h2 := hfx
    rw [abs_lt]
    constructor <;> linarith
  rw [hkx, hkp] at hclose
  have hdiff : |((kp - kx : ℤ) : ℚ)| < 1 := by
    push_cast
    have : (kp : ℚ)/100 - (kx : ℚ)/100 = ((kp : ℚ) - kx)/100 := by ring
    rw [this] at hclose
    rw [abs_div] at hclose
    rw [abs_of_pos (show (0:ℚ) < 100 by norm_num)] at hclose
    rw [div_lt_div_iff (by norm_num) (by norm_num)] at hclose
    linarith
  have hkk : kp = kx := by
    have h4 : |kp - kx| < 1 := by exact_mod_cast hdiff
    have h5 := abs_lt.1 h4
    omega
  rw [hkp, hkx, hkk]

/-- C7 (confirmed): on entities whose fields re-validate to themselves,
the storage round trip (entity → flat dict → reconstructed entity) is
the identity on every field.  `p` is the decimal parsed back from the
float's shortest string representation, constrained by CPython's
documented repr contract: it parses to the same binary64 and needs at
most the two fractional digits of the original value. -/
theorem gateway_roundtrip_spec :
    (∀ (clock : Clock) (v : Vehicle) (p : ℚ), ValidVehicle clock v →
      roundB64 p = roundB64 v.price → (∃ k : ℤ, p = (k : ℚ) / 100) →
      vehicleDictToEntity clock (vehicleEntityToDict v) p = Except.ok v)
  ∧ (∀ (clock : Clock) (s : Sale) (p : ℚ), ValidSale clock s →
      roundB64 p = roundB64 s.amount → (∃ k : ℤ, p = (k : ℚ) / 100) →
      saleDictToEntity clock (saleEntityToDict s) p = Except.ok s) := by
  constructor
  · intro clock v p hvalid hb hp2
    have hveq : Vehicle.make clock v.brand v.model v.year v.price v.color v.id v.status
        (some v.createdAt) (some v.updatedAt) = Except.ok v := hvalid
    obtain ⟨_, _, _, _, _, _, _, hprice, _⟩ :=
      vehicleMake_ok_inv clock v.brand v.model v.year v.price v.color v.id v.status
        (some v.createdAt) (some v.updatedAt) v hveq
    obtain ⟨hp0, hpm, hpq⟩ := validatePrice_ok_inv v.price v.price hprice
    have hx2 : ∃ k : ℤ, v.price = (k : ℚ)/100 := by
      obtain ⟨k, hk⟩ := quantize2_twoDec v.price
      exact ⟨k, hpq.trans hk⟩
    have hx0 : (1:ℚ)/100 ≤ v.price := by
      obtain ⟨k, hk⟩ := hx2
      have hkq : (0:ℚ) < (k:ℚ) := by
        rw [hk] at hp0
        nlinarith [hp0]
      have hk1 : (1:ℤ) ≤ k := by exact_mod_cast hkq
      have h1q : (1:ℚ) ≤ (k:ℚ) := by exact_mod_cast hk1
      rw [hk]
      linarith
    have hpx : p = v.price := float_repr_roundtrip v.price p hx2 hp2 hx0 hpm hb
    have hst : vehicleStatusOfStr (pyLower (vehicleStatusStr v.status)) =
        Except.ok v.status := by cases v.status <;> decide
    unfold vehicleDictToEntity vehicleEntityToDict
    dsimp only
    rw [hst, hpx]
    exact hveq
  · intro clock s p hvalid hb hp2
    have hseq : Sale.make clock s.vehicleId s.customerCpf s.saleDate s.amount s.id
        s.paymentStatus (some s.createdAt) (some s.updatedAt) = Except.ok s := hvalid
    obtain ⟨_, _, _, _, _, _, _, _, hamt, _⟩ :=
      saleMake_ok_inv clock s.vehicleId s.customerCpf s.saleDate s.amount s.id
        s.paymentStatus (some s.createdAt) (some s.updatedAt) s hseq
    obtain ⟨hp0, hpm, hpq⟩ := validateAmount_ok_inv s.amount s.amount hamt
    have hx2 : ∃ k : ℤ, s.amount = (k : ℚ)/100 := by
      obtain ⟨k, hk⟩ := quantize2_twoDec s.amount
      exact ⟨k, hpq.trans hk⟩
    have hx0 : (1:ℚ)/100 ≤ s.amount := by
      obtain ⟨k, hk⟩ := hx2
      have hkq : (0:ℚ) < (k:ℚ) := by
        rw [hk] at hp0
        nlinarith [hp0]
      have hk1 : (1:ℤ) ≤ k := by exact_mod_cast hkq
      have h1q : (1:ℚ) ≤ (k:ℚ) := by exact_mod_cast hk1
      rw [hk]
      linarith
    have hpx : p = s.amount := float_repr_roundtrip s.amount p hx2 hp2 hx0 hpm hb
    have hst : payStatusOfStr (payStatusStr s.paymentStatus) =
        Except.ok s.paymentStatus := by cases s.paymentStatus <;> decide
    unfold saleDictToEntity saleEntityToDict
    dsimp only
    rw [hst, hpx]
    exact hseq

theorem gateway_roundtrip_spec_witness :
    vehicleDictToEntity clk0 (vehicleEntityToDict v0) v0.price = Except.ok v0 ∧
    saleDictToEntity clk0 (saleEntityToDict { s0 with id := some 1 })
        ({ s0 with id := some 1 } : Sale).amount =
      Except.ok { s0 with id := some 1 } :=
  ⟨gateway_roundtrip_spec.1 clk0 v0 v0.price (by unfold ValidVehicle; decide) rfl
      ⟨5000000, by norm_num [v0]⟩,
   gateway_roundtrip_spec.2 clk0 { s0 with id := some 1 }
      ({ s0 with id := some 1 } : Sale).amount (by unfold ValidSale; decide) rfl
      ⟨10000, by norm_num [s0]⟩⟩
